import Mathlib

/-!
Verification of the multi-threaded PDF mass downloader
(`Multi Thread and PDF Mass Download.py`).

The embedding models the download engine: per-URL retry loop
(`attempt_download`), per-record orchestration (`download_pdf`), candidate
selection (`downloadable_rows`, `selected_rows`, `num_pdfs_to_download`),
and the result-collection step that updates the status ledger.

Modelling conventions:
* One HTTP attempt (`requests.get` + `raise_for_status` + content-type check
  + chunked streaming) is summarised by a `GetResult`: either a transport
  exception or an `HttpResponse` carrying status code, content-type, the
  body chunks delivered, and an optional transport error raised mid-stream.
* The network is a function from attempt number (and, at the record level,
  URL) to `GetResult`, so each claim quantifies over network behaviours.
* The filesystem at the destination path of the record is `FS`: `none` when
  no file exists there, `some bytes` for the contents. The write-mode `open`
  truncates; `pdf_file.write(chunk)` appends nonempty chunks.
* Statuses are the exact Python status strings. File sizes are kept in
  bytes (`Option Nat`, `none` = "N/A"); the division by 1024 in the source and
  two-decimal formatting are presentation only.
* `time.sleep(1)` and each `requests.get` are recorded in an event trace so
  that attempt counts and backoff structure are provable.
* The connectivity-wait block (lines 111-126) either no-ops when the probe
  reports online or busy-waits on wall-clock time and calls `sys.exit`;
  the embedding covers executions in which the probe reports online
  (wall-clock time and process termination are outside the model).
* Uncaught filesystem exceptions (`open`/`getsize` raising `OSError`) are
  outside the model: the destination directory is assumed writable, as the
  source assumes after `os.makedirs`.
-/

namespace PdfDownloader

/-- Status string for a not-yet-attempted record: `Ikke downloadet`. -/
def ikkeDownloadetStr : String := "Ikke downloadet"

/-- Initial/success status string `Downloadet` (line 103). -/
def downloadetStr : String := "Downloadet"

/-- Status for a non-PDF content type (line 133). -/
def notPdfStr : String := "Invalid Download (Not a PDF file)"

/-- Status for a request timeout (line 145). -/
def timeoutStr : String := "Invalid Download (Timeout)"

/-- Status for a connection error (line 149). -/
def connErrStr : String := "Invalid Download (Connection Error)"

/-- Status for an HTTP error, carrying the status code of the response (line 147). -/
def httpErrStr (code : Nat) : String :=
  "Invalid Download (HTTP Error " ++ toString code ++ ")"

/-- Status for any other `RequestException` (line 151). -/
def otherErrStr (detail : String) : String :=
  "Invalid Download (Other Error: " ++ detail ++ ")"

/-- A transport error raised while iterating `response.iter_content`,
after some chunks have already been written to the open file. -/
inductive StreamErr where
  | connErr
  | otherErr (detail : String)
deriving DecidableEq, Repr

/-- An HTTP response as observed by one attempt: status code, content-type
header, the body chunks delivered by `iter_content` before any mid-stream
error, and the optional mid-stream error. -/
structure HttpResponse where
  statusCode : Nat
  contentType : String
  goodChunks : List (List Nat)
  streamErr : Option StreamErr
deriving DecidableEq, Repr

/-- Outcome of one `requests.get` call: a transport exception raised by the
call itself, or a response object. -/
inductive GetResult where
  | timeout
  | connectionError
  | otherError (detail : String)
  | response (r : HttpResponse)
deriving DecidableEq, Repr

/-- Contents of the destination path `pdf_filename` of the record:
`none` = no file, `some bs` = a file holding bytes `bs`. -/
structure FS where
  contents : Option (List Nat)
deriving DecidableEq, Repr

/-- Observable events of the retry loop: an HTTP GET for a URL at a given
attempt number, or a `time.sleep(1)` backoff. -/
inductive Event where
  | get (url : String) (attempt : Nat)
  | sleep1
deriving DecidableEq, Repr

/-- What the body of the `for attempt in range(...)` loop does with one
`GetResult`, mirroring lines 128-151. -/
inductive AttemptOutcome where
  | success (written : List Nat)
  | breakNotPdf
  | failure (status : String)
deriving DecidableEq, Repr

/-- The bytes written by `for chunk in response.iter_content: if chunk:
pdf_file.write(chunk)` over the delivered chunks (line 137-139). -/
def writtenBytes (chunks : List (List Nat)) : List Nat :=
  (chunks.filter (fun c => c ≠ [])).flatten

/-- One iteration of the try-block (lines 128-151): `raise_for_status`
classifies 4xx/5xx as `HTTPError`; a non-`application/pdf` content type
breaks the loop; otherwise the file is opened (truncating), the chunks are
streamed, and either the attempt succeeds or a mid-stream transport error
is classified like the corresponding `requests` exception. Returns the
outcome together with the destination-path contents after the attempt. -/
def runGet (g : GetResult) (fs : FS) : AttemptOutcome × FS :=
  match g with
  | .timeout => (.failure timeoutStr, fs)
  | .connectionError => (.failure connErrStr, fs)
  | .otherError d => (.failure (otherErrStr d), fs)
  | .response r =>
    if 400 ≤ r.statusCode ∧ r.statusCode < 600 then
      (.failure (httpErrStr r.statusCode), fs)
    else if r.contentType ≠ "application/pdf" then
      (.breakNotPdf, fs)
    else
      let written := writtenBytes r.goodChunks
      match r.streamErr with
      | none => (.success written, ⟨some written⟩)
      | some .connErr => (.failure connErrStr, ⟨some written⟩)
      | some (.otherErr d) => (.failure (otherErrStr d), ⟨some written⟩)

/-- Result of `attempt_download`: the boolean return value, the `nonlocal`
`status_message` and `file_size_kb` (bytes; `none` = `"N/A"`), the
destination-path contents, and the event trace. -/
structure AttemptRes where
  ok : Bool
  status : String
  fileSize : Option Nat
  fs : FS
  trace : List Event
deriving DecidableEq, Repr

/-- The `for attempt in range(1, max_attempts + 1)` loop of
`attempt_download` (lines 110-155). `fuel` is the number of attempts left,
`i` the 1-based attempt number. On success the function returns `True`
without touching `status_message` (the file size is set from
`os.path.getsize`); on a non-PDF content type it sets the status and
breaks; on an exception it sets the status, sleeps 1s, and retries; when
attempts are exhausted it returns `False`. -/
def attemptLoop (net : Nat → GetResult) (url : String) :
    Nat → Nat → String → Option Nat → FS → List Event → AttemptRes
  | 0, _, status, size, fs, tr => ⟨false, status, size, fs, tr⟩
  | fuel + 1, i, status, size, fs, tr =>
    match runGet (net i) fs with
    | (.success written, fs') =>
      ⟨true, status, some written.length, fs', tr ++ [.get url i]⟩
    | (.breakNotPdf, fs') =>
      ⟨false, notPdfStr, size, fs', tr ++ [.get url i]⟩
    | (.failure st, fs') =>
      attemptLoop net url fuel (i + 1) st size fs' (tr ++ [.get url i, .sleep1])

/-- The retry cap `max_attempts = 3` (line 104). -/
def max_attempts : Nat := 3

/-- The function `attempt_download(url)` (lines 108-155), for executions in which the
connectivity probe reports online: up to `max_attempts` tries against the
given per-attempt network behaviour, starting from the current
`status_message`, `file_size_kb` and destination-path contents. -/
def attempt_download (net : Nat → GetResult) (url : String)
    (status : String) (size : Option Nat) (fs : FS) : AttemptRes :=
  attemptLoop net url max_attempts 1 status size fs []

/-- One spreadsheet row of `df_fixed`: the BRnum index, `Pdf_URL` and
`Report Html Address` (`none` models a NaN/missing value; `some ""` a
present-but-empty string, which pandas `notna` counts as non-null). -/
structure Row where
  brnum : String
  pdf_url : Option String
  report_html_address : Option String
deriving DecidableEq, Repr

/-- The Python guard `pd.notna(u) and u`: the value is non-null and truthy
(a nonempty string). -/
def truthyUrl (u : Option String) : Bool :=
  match u with
  | none => false
  | some s => s ≠ ""

/-- Result of `download_pdf(row)` (the returned triple), together with the
destination-path contents and the event trace of the whole task. -/
structure TaskResult where
  brnum : String
  status : String
  fileSize : Option Nat
  fs : FS
  trace : List Event
deriving DecidableEq, Repr

/-- The task `download_pdf(row)` (lines 98-163): try the primary `Pdf_URL` when
non-null and nonempty; on failure try `Report Html Address` under the same
guard; return `(brnum, status_message, file_size_kb)`. `status_message`
starts as `Downloadet` and `file_size_kb` as `N/A`; both are `nonlocal`
and persist across the two `attempt_download` calls. The network behaviour
`net` maps a URL and an attempt number to the outcome of that attempt. -/
def download_pdf (net : String → Nat → GetResult) (fs0 : FS) (row : Row) :
    TaskResult :=
  if truthyUrl row.pdf_url then
    let purl := row.pdf_url.getD ""
    let r1 := attempt_download (net purl) purl downloadetStr none fs0
    if r1.ok then
      ⟨row.brnum, r1.status, r1.fileSize, r1.fs, r1.trace⟩
    else if truthyUrl row.report_html_address then
      let aurl := row.report_html_address.getD ""
      let r2 := attempt_download (net aurl) aurl r1.status r1.fileSize r1.fs
      ⟨row.brnum, r2.status, r2.fileSize, r2.fs, r1.trace ++ r2.trace⟩
    else
      ⟨row.brnum, r1.status, r1.fileSize, r1.fs, r1.trace⟩
  else if truthyUrl row.report_html_address then
    let aurl := row.report_html_address.getD ""
    let r2 := attempt_download (net aurl) aurl downloadetStr none fs0
    ⟨row.brnum, r2.status, r2.fileSize, r2.fs, r2.trace⟩
  else
    ⟨row.brnum, downloadetStr, none, fs0, []⟩

/-- Candidate selection (lines 79-80): rows of `df_fixed` whose `Pdf_URL`
is non-null (`notna`; an empty string passes) and whose ledger status is
`Ikke downloadet`. The ledger maps a BRnum to its `Download Status`. -/
def downloadable_rows (rows : List Row) (ledger : String → String) :
    List Row :=
  rows.filter (fun r =>
    r.pdf_url.isSome && (ledger r.brnum == ikkeDownloadetStr))

/-- Value of one decimal digit, as `int()` reads it. -/
def digitVal (c : Char) : Option Nat :=
  if c.isDigit then some (c.toNat - 48) else none

/-- Decimal digits folded into a number; any non-digit fails the parse. -/
def parseNatAux : List Char → Nat → Option Nat
  | [], acc => some acc
  | c :: cs, acc =>
    match digitVal c with
    | none => none
    | some d => parseNatAux cs (acc * 10 + d)

/-- Python `int()` on a decimal literal: an optional sign followed by one
or more digits; anything else raises `ValueError` (`none`). Surrounding
whitespace and underscore separators, which Python also accepts, are not
modelled — no claim depends on them. -/
def pyInt (s : String) : Option Int :=
  match s.data with
  | [] => none
  | '-' :: cs =>
    match cs with
    | [] => none
    | _ :: _ => (parseNatAux cs 0).map (fun n => -(n : Int))
  | '+' :: cs =>
    match cs with
    | [] => none
    | _ :: _ => (parseNatAux cs 0).map (fun n => (n : Int))
  | cs => (parseNatAux cs 0).map (fun n => (n : Int))

/-- The batch-size prompt `int(input(...) or 20)` with `ValueError`
fallback (lines 87-90): an empty input falls back to 20 via `or 20`;
otherwise the input is parsed as an integer, any parse failure falling
back to 20. -/
def num_pdfs_to_download (input : String) : Int :=
  if input = "" then 20 else (pyInt input).getD 20

/-- The pandas `DataFrame.head(n)` on a row list: the first `n` rows for `n ≥ 0`;
for negative `n`, all rows but the last `|n|` (Python slice `[:n]`). -/
def headPd (xs : List Row) (n : Int) : List Row :=
  if 0 ≤ n then xs.take n.toNat else xs.take (xs.length - n.natAbs)

/-- The selection `selected_rows = downloadable_rows.head(num_pdfs_to_download)`
(line 95), with the batch size taken from the interactive input. -/
def selected_rows (rows : List Row) (ledger : String → String)
    (input : String) : List Row :=
  headPd (downloadable_rows rows ledger) (num_pdfs_to_download input)

/-- The result-collection step for one completed future (line 176):
`download_status_df.loc[brnum, Download Status] = result_status`. -/
def recordResult (ledger : String → String) (res : TaskResult) :
    String → String :=
  fun k => if k = res.brnum then res.status else ledger k

/-- One session of the scheduler loop (lines 168-178) as it affects the
status ledger: every selected row is dispatched to `download_pdf` and its
returned status is written to the ledger keyed by BRnum. Completion order
does not matter for the final ledger because rows are keyed by BRnum and
the result of each future is written under its own key; the submission-order
fold is used here. -/
def runSession (net : String → Nat → GetResult) (fs0 : FS)
    (rows : List Row) (ledger : String → String) (input : String) :
    String → String :=
  (selected_rows rows ledger input).foldl
    (fun l r => recordResult l (download_pdf net fs0 r)) ledger

/-!
### General lemmas about the embedding
-/

/-- The status strings that `attempt_download` and `download_pdf` can leave
in `status_message`. -/
def knownStatus (s : String) : Prop :=
  s = downloadetStr ∨ s = notPdfStr ∨ s = timeoutStr ∨ s = connErrStr ∨
    (∃ c, s = httpErrStr c) ∨ (∃ d, s = otherErrStr d)

lemma knownStatus_downloadet : knownStatus downloadetStr := Or.inl rfl

lemma knownStatus_notPdf : knownStatus notPdfStr := Or.inr (Or.inl rfl)

lemma knownStatus_timeout : knownStatus timeoutStr :=
  Or.inr (Or.inr (Or.inl rfl))

lemma knownStatus_conn : knownStatus connErrStr :=
  Or.inr (Or.inr (Or.inr (Or.inl rfl)))

lemma knownStatus_http (c : Nat) : knownStatus (httpErrStr c) :=
  Or.inr (Or.inr (Or.inr (Or.inr (Or.inl ⟨c, rfl⟩))))

lemma knownStatus_other (d : String) : knownStatus (otherErrStr d) :=
  Or.inr (Or.inr (Or.inr (Or.inr (Or.inr ⟨d, rfl⟩))))

lemma knownStatus_runGet_failure (g : GetResult) (fs fs2 : FS) (st : String)
    (h : runGet g fs = (AttemptOutcome.failure st, fs2)) : knownStatus st := by
  cases g with
  | timeout =>
      simp only [runGet, Prod.mk.injEq, AttemptOutcome.failure.injEq] at h
      exact h.1 ▸ knownStatus_timeout
  | connectionError =>
      simp only [runGet, Prod.mk.injEq, AttemptOutcome.failure.injEq] at h
      exact h.1 ▸ knownStatus_conn
  | otherError d =>
      simp only [runGet, Prod.mk.injEq, AttemptOutcome.failure.injEq] at h
      exact h.1 ▸ knownStatus_other d
  | response r =>
      simp only [runGet] at h
      split at h
      · simp only [Prod.mk.injEq, AttemptOutcome.failure.injEq] at h
        exact h.1 ▸ knownStatus_http r.statusCode
      · split at h
        · simp at h
        · rcases hs : r.streamErr with _ | e
          · rw [hs] at h; simp at h
          · rw [hs] at h
            cases e with
            | connErr =>
                simp only [Prod.mk.injEq, AttemptOutcome.failure.injEq] at h
                exact h.1 ▸ knownStatus_conn
            | otherErr d =>
                simp only [Prod.mk.injEq, AttemptOutcome.failure.injEq] at h
                exact h.1 ▸ knownStatus_other d

lemma attemptLoop_status_known (net : Nat → GetResult) (url : String)
    (fuel : Nat) :
    ∀ (i : Nat) (status : String) (size : Option Nat) (fs : FS)
      (tr : List Event), knownStatus status →
      knownStatus (attemptLoop net url fuel i status size fs tr).status := by
  induction fuel with
  | zero => intro i status size fs tr hk; exact hk
  | succ n ih =>
      intro i status size fs tr hk
      simp only [attemptLoop]
      rcases hg : runGet (net i) fs with ⟨out, fs2⟩
      cases out with
      | success w => simp only [hg]; exact hk
      | breakNotPdf => simp only [hg]; exact knownStatus_notPdf
      | failure st =>
          simp only [hg]
          exact ih _ _ _ _ _ (knownStatus_runGet_failure _ _ _ _ hg)

lemma attempt_download_status_known (net : Nat → GetResult)
    (url status : String) (size : Option Nat) (fs : FS)
    (hk : knownStatus status) :
    knownStatus (attempt_download net url status size fs).status :=
  attemptLoop_status_known net url max_attempts 1 status size fs [] hk

lemma download_pdf_status_known (net : String → Nat → GetResult) (fs0 : FS)
    (row : Row) : knownStatus (download_pdf net fs0 row).status := by
  simp only [download_pdf]
  repeat' split
  all_goals first
    | exact attempt_download_status_known _ _ _ _ _ knownStatus_downloadet
    | exact attempt_download_status_known _ _ _ _ _
        (attempt_download_status_known _ _ _ _ _ knownStatus_downloadet)
    | exact knownStatus_downloadet

lemma download_pdf_brnum (net : String → Nat → GetResult) (fs0 : FS)
    (row : Row) : (download_pdf net fs0 row).brnum = row.brnum := by
  simp only [download_pdf]
  repeat' split
  all_goals rfl

lemma length_ikkeDownloadetStr : ikkeDownloadetStr.length = 15 := rfl

lemma httpErrStr_ne_ikke (c : Nat) : httpErrStr c ≠ ikkeDownloadetStr := by
  intro he
  have hl := congrArg String.length he
  unfold httpErrStr ikkeDownloadetStr at hl
  rw [String.length_append, String.length_append] at hl
  have h1 : ("Invalid Download (HTTP Error ").length = 29 := rfl
  have h2 : (")").length = 1 := rfl
  have h3 : ("Ikke downloadet").length = 15 := rfl
  rw [h1, h2, h3] at hl
  omega

lemma otherErrStr_ne_ikke (d : String) : otherErrStr d ≠ ikkeDownloadetStr := by
  intro he
  have hl := congrArg String.length he
  unfold otherErrStr ikkeDownloadetStr at hl
  rw [String.length_append, String.length_append] at hl
  have h1 : ("Invalid Download (Other Error: ").length = 31 := rfl
  have h2 : (")").length = 1 := rfl
  have h3 : ("Ikke downloadet").length = 15 := rfl
  rw [h1, h2, h3] at hl
  omega

/-- No status that the download task can produce is the not-yet-attempted
marker `Ikke downloadet`: every produced status is terminal. -/
lemma ne_ikke_of_knownStatus (s : String) (h : knownStatus s) :
    s ≠ ikkeDownloadetStr := by
  rcases h with h | h | h | h | ⟨c, h⟩ | ⟨d, h⟩
  · subst h; decide
  · subst h; decide
  · subst h; decide
  · subst h; decide
  · subst h; exact httpErrStr_ne_ikke c
  · subst h; exact otherErrStr_ne_ikke d

lemma download_pdf_status_ne_ikke (net : String → Nat → GetResult) (fs0 : FS)
    (row : Row) : (download_pdf net fs0 row).status ≠ ikkeDownloadetStr :=
  ne_ikke_of_knownStatus _ (download_pdf_status_known net fs0 row)

/-- Where the ledger still reads `Ikke downloadet` after the scheduler has
folded the results of a list of tasks into it: exactly at keys that read
`Ikke downloadet` before and belong to no processed row. -/
lemma foldl_record_ikke (net : String → Nat → GetResult) (fs0 : FS) :
    ∀ (sel : List Row) (ledger : String → String) (k : String),
      ((sel.foldl (fun l r => recordResult l (download_pdf net fs0 r))
          ledger) k = ikkeDownloadetStr
        ↔ (ledger k = ikkeDownloadetStr ∧ k ∉ sel.map Row.brnum)) := by
  intro sel
  induction sel with
  | nil => intro ledger k; simp
  | cons r rest ih =>
      intro ledger k
      simp only [List.foldl_cons, List.map_cons, List.mem_cons]
      rw [ih]
      unfold recordResult
      rw [download_pdf_brnum]
      by_cases hk : k = r.brnum
      · subst hk
        rw [if_pos rfl]
        constructor
        · rintro ⟨h1, -⟩
          exact absurd h1 (download_pdf_status_ne_ikke net fs0 r)
        · rintro ⟨-, h2⟩
          exact absurd (Or.inl rfl) h2
      · rw [if_neg hk]
        constructor
        · rintro ⟨h1, h2⟩
          exact ⟨h1, fun hc => hc.elim (fun he => hk he) h2⟩
        · rintro ⟨h1, h2⟩
          exact ⟨h1, fun hc => h2 (Or.inr hc)⟩

/-- Keys of unprocessed rows are untouched by the result-collection fold. -/
lemma foldl_record_notmem (net : String → Nat → GetResult) (fs0 : FS) :
    ∀ (sel : List Row) (ledger : String → String) (k : String),
      k ∉ sel.map Row.brnum →
      (sel.foldl (fun l r => recordResult l (download_pdf net fs0 r))
          ledger) k = ledger k := by
  intro sel
  induction sel with
  | nil => intro ledger k _; rfl
  | cons r rest ih =>
      intro ledger k hk
      simp only [List.map_cons, List.mem_cons] at hk
      push_neg at hk
      simp only [List.foldl_cons]
      rw [ih _ _ hk.2]
      unfold recordResult
      rw [download_pdf_brnum]
      exact if_neg hk.1

/-- The ledger value at the key of a processed row is the status returned
by some processed task. -/
lemma foldl_record_apply (net : String → Nat → GetResult) (fs0 : FS) :
    ∀ (sel : List Row) (ledger : String → String) (k : String),
      k ∈ sel.map Row.brnum →
      ∃ r2, r2 ∈ sel ∧
        (sel.foldl (fun l r => recordResult l (download_pdf net fs0 r))
            ledger) k = (download_pdf net fs0 r2).status := by
  intro sel
  induction sel with
  | nil => intro ledger k hk; simp at hk
  | cons r rest ih =>
      intro ledger k hk
      simp only [List.foldl_cons]
      by_cases hmem : k ∈ rest.map Row.brnum
      · obtain ⟨r2, hr2, heq⟩ := ih _ k hmem
        exact ⟨r2, List.mem_cons_of_mem _ hr2, heq⟩
      · refine ⟨r, List.mem_cons_self _ _, ?_⟩
        rw [foldl_record_notmem net fs0 rest _ k hmem]
        unfold recordResult
        rw [download_pdf_brnum]
        simp only [List.map_cons, List.mem_cons] at hk
        rcases hk with hk | hk
        · exact if_pos hk
        · exact absurd hk hmem

/-- An attempt whose `GetResult` never reaches the body-streaming stage:
the GET raised a transport exception, `raise_for_status` raised, or the
content-type check failed. Such an attempt never opens the destination
file (the `open` on line 136 comes after both checks). -/
def noStreamWrite (g : GetResult) : Prop :=
  match g with
  | .response r =>
      (400 ≤ r.statusCode ∧ r.statusCode < 600) ∨
        r.contentType ≠ "application/pdf"
  | _ => True

lemma runGet_noStreamWrite (g : GetResult) (fs : FS) (h : noStreamWrite g) :
    (runGet g fs).2 = fs ∧
      ∀ w, (runGet g fs).1 ≠ AttemptOutcome.success w := by
  cases g with
  | timeout => exact ⟨rfl, fun w => by simp [runGet]⟩
  | connectionError => exact ⟨rfl, fun w => by simp [runGet]⟩
  | otherError d => exact ⟨rfl, fun w => by simp [runGet]⟩
  | response r =>
      unfold noStreamWrite at h
      rcases h with h | h
      · constructor
        · simp [runGet, if_pos h]
        · intro w; simp [runGet, if_pos h]
      · by_cases h4 : 400 ≤ r.statusCode ∧ r.statusCode < 600
        · constructor
          · simp [runGet, if_pos h4]
          · intro w; simp [runGet, if_pos h4]
        · constructor
          · simp [runGet, if_neg h4, if_pos h]
          · intro w; simp [runGet, if_neg h4, if_pos h]

/-- When no attempt of the loop reaches body streaming, the loop fails and
the destination-path contents are exactly what they were before. -/
lemma attemptLoop_fs_noStreamWrite (net : Nat → GetResult) (url : String)
    (fuel : Nat) (hnet : ∀ i, noStreamWrite (net i)) :
    ∀ (i : Nat) (status : String) (size : Option Nat) (fs : FS)
      (tr : List Event),
      (attemptLoop net url fuel i status size fs tr).fs = fs ∧
        (attemptLoop net url fuel i status size fs tr).ok = false := by
  induction fuel with
  | zero => intro i status size fs tr; exact ⟨rfl, rfl⟩
  | succ n ih =>
      intro i status size fs tr
      have hg := runGet_noStreamWrite (net i) fs (hnet i)
      simp only [attemptLoop]
      rcases hrg : runGet (net i) fs with ⟨out, fs2⟩
      have hfs2 : fs2 = fs := by
        have := hg.1
        rw [hrg] at this
        exact this
      cases out with
      | success w =>
          exfalso
          have := hg.2 w
          rw [hrg] at this
          exact this rfl
      | breakNotPdf => subst hfs2; simp [hrg]
      | failure st =>
          subst hfs2
          simp only [hrg]
          exact ih _ _ _ _ _

/-- The pandas `head` takes the whole list when the limit covers its
length. -/
lemma headPd_all (xs : List Row) (n : Int) (h : (xs.length : Int) ≤ n) :
    headPd xs n = xs := by
  have h0 : 0 ≤ n := by omega
  unfold headPd
  rw [if_pos h0]
  apply List.take_of_length_le
  omega

/-- Membership in the selection filter of lines 79-80. -/
lemma mem_downloadable_rows (rows : List Row) (ledger : String → String)
    (r : Row) :
    r ∈ downloadable_rows rows ledger ↔
      (r ∈ rows ∧ r.pdf_url.isSome ∧
        ledger r.brnum = ikkeDownloadetStr) := by
  unfold downloadable_rows
  rw [List.mem_filter]
  simp [and_assoc]

/-- Where the session-final ledger still reads `Ikke downloadet`. -/
lemma runSession_ikke (net : String → Nat → GetResult) (fs0 : FS)
    (rows : List Row) (ledger : String → String) (input : String)
    (k : String) :
    runSession net fs0 rows ledger input k = ikkeDownloadetStr ↔
      (ledger k = ikkeDownloadetStr ∧
        k ∉ (selected_rows rows ledger input).map Row.brnum) :=
  foldl_record_ikke net fs0 _ ledger k

/-!
### Claims
-/

/-- C1: the claim says that when the primary URL fails with an HTTP error
(e.g. 404) and the fallback URL yields a valid PDF, `download_pdf` returns
a Success status together with the size of the fallback download. The code
violates this: `attempt_download` never resets `status_message` on
success, so the task returns the failure status left by the primary
attempt together with the size and file of the successful fallback
download. Evaluated at a record whose primary URL yields HTTP 404 on every
attempt and whose fallback URL yields a valid 4-byte PDF: the status is
the 404 failure string, not `Downloadet`. -/
theorem c1_fallback_success_keeps_primary_failure_status :
    download_pdf
        (fun url _ =>
          if url = "http://primary" then
            GetResult.response (HttpResponse.mk 404 "text/html" [] none)
          else
            GetResult.response
              (HttpResponse.mk 200 "application/pdf" [[1, 2, 3, 4]] none))
        (FS.mk none)
        (Row.mk "BR1" (some "http://primary") (some "http://fallback"))
      = TaskResult.mk "BR1" (httpErrStr 404) (some 4)
          (FS.mk (some [1, 2, 3, 4]))
          [Event.get "http://primary" 1, Event.sleep1,
            Event.get "http://primary" 2, Event.sleep1,
            Event.get "http://primary" 3, Event.sleep1,
            Event.get "http://fallback" 1] := by
  decide

/-- Selection condition as C2 states it, written from the words of the
spec (to be compared against `downloadable_rows`, which is written from
the source): a non-blank primary URL or a non-blank fallback URL, and
status `Ikke downloadet`. -/
def claimedCandidate (r : Row) (ledger : String → String) : Bool :=
  (truthyUrl r.pdf_url || truthyUrl r.report_html_address) &&
    (ledger r.brnum == ikkeDownloadetStr)

/-- C2 counterexample: a record with a null primary URL, a non-blank
fallback URL and status `Ikke downloadet` satisfies the candidate
condition claimed by C2, yet the selection of lines 79-80 does not pick
it: the filter looks only at `Pdf_URL`. -/
theorem c2_fallback_only_record_not_selected :
    claimedCandidate (Row.mk "BR1" none (some "http://alt"))
        (fun _ => ikkeDownloadetStr) = true ∧
      downloadable_rows [Row.mk "BR1" none (some "http://alt")]
        (fun _ => ikkeDownloadetStr) = [] := by
  decide

/-- C2 amended: a record is a candidate for selection iff its `Pdf_URL` is
non-null (pandas `notna`; an empty string counts as non-null) and its
status is `Ikke downloadet`. The fallback URL plays no role in selection,
and a record whose status is any other (terminal) value is never
selected. -/
theorem c2_selection_candidates (rows : List Row)
    (ledger : String → String) (r : Row) (h : r ∈ rows) :
    r ∈ downloadable_rows rows ledger ↔
      (r.pdf_url.isSome ∧ ledger r.brnum = ikkeDownloadetStr) := by
  rw [mem_downloadable_rows]
  simp [h]

/-- Witness for C2 at a concrete record and ledger. -/
theorem c2_selection_candidates_witness :
    (Row.mk "BR1" (some "http://x") none) ∈
        downloadable_rows [Row.mk "BR1" (some "http://x") none]
          (fun _ => ikkeDownloadetStr) ↔
      ((Row.mk "BR1" (some "http://x") none).pdf_url.isSome ∧
        (fun _ : String => ikkeDownloadetStr)
            (Row.mk "BR1" (some "http://x") none).brnum
          = ikkeDownloadetStr) :=
  c2_selection_candidates [Row.mk "BR1" (some "http://x") none]
    (fun _ => ikkeDownloadetStr) (Row.mk "BR1" (some "http://x") none)
    (List.mem_singleton.mpr rfl)

/-- C4: when every response from a URL passes `raise_for_status` but
carries a content type other than application/pdf, `attempt_download`
records the not-a-PDF status after exactly one GET and breaks the retry
loop at once: the trace holds a single GET and no backoff sleep, the loop
returns `False`, and the destination file and the recorded size are
untouched. Stated for the first attempt, which is the only one that
runs. -/
theorem c4_not_pdf_breaks_retry_loop (net : Nat → GetResult)
    (url status : String) (size : Option Nat) (fs : FS)
    (resp : HttpResponse) (h1 : net 1 = GetResult.response resp)
    (h2 : ¬(400 ≤ resp.statusCode ∧ resp.statusCode < 600))
    (h3 : resp.contentType ≠ "application/pdf") :
    (attempt_download net url status size fs).status = notPdfStr ∧
      (attempt_download net url status size fs).ok = false ∧
      (attempt_download net url status size fs).trace = [Event.get url 1] ∧
      (attempt_download net url status size fs).fs = fs ∧
      (attempt_download net url status size fs).fileSize = size := by
  have hg : runGet (net 1) fs = (AttemptOutcome.breakNotPdf, fs) := by
    rw [h1]
    simp [runGet, if_neg h2, if_pos h3]
  simp [attempt_download, max_attempts, attemptLoop, hg]

/-- Witness for C4: a URL always answering 200 with `text/html`. -/
theorem c4_not_pdf_breaks_retry_loop_witness :
    (attempt_download
          (fun _ => GetResult.response
            (HttpResponse.mk 200 "text/html" [] none))
          "http://u" downloadetStr none (FS.mk none)).status = notPdfStr ∧
      (attempt_download
          (fun _ => GetResult.response
            (HttpResponse.mk 200 "text/html" [] none))
          "http://u" downloadetStr none (FS.mk none)).ok = false ∧
      (attempt_download
          (fun _ => GetResult.response
            (HttpResponse.mk 200 "text/html" [] none))
          "http://u" downloadetStr none (FS.mk none)).trace
        = [Event.get "http://u" 1] ∧
      (attempt_download
          (fun _ => GetResult.response
            (HttpResponse.mk 200 "text/html" [] none))
          "http://u" downloadetStr none (FS.mk none)).fs = FS.mk none ∧
      (attempt_download
          (fun _ => GetResult.response
            (HttpResponse.mk 200 "text/html" [] none))
          "http://u" downloadetStr none (FS.mk none)).fileSize = none :=
  c4_not_pdf_breaks_retry_loop _ _ _ _ _
    (HttpResponse.mk 200 "text/html" [] none) rfl (by decide) (by decide)

/-- C5: when every attempt against a URL times out, `attempt_download`
performs exactly `max_attempts = 3` GETs with a one-second sleep after
each failed attempt — in particular a sleep separates every pair of
consecutive tries — returns `False` with status `Invalid Download
(Timeout)`, and leaves the destination file untouched. -/
theorem c5_timeout_exhausts_three_attempts (net : Nat → GetResult)
    (url status : String) (size : Option Nat) (fs : FS)
    (h : ∀ i, net i = GetResult.timeout) :
    (attempt_download net url status size fs).status = timeoutStr ∧
      (attempt_download net url status size fs).ok = false ∧
      (attempt_download net url status size fs).trace =
        [Event.get url 1, Event.sleep1, Event.get url 2, Event.sleep1,
          Event.get url 3, Event.sleep1] ∧
      (attempt_download net url status size fs).fs = fs := by
  simp [attempt_download, max_attempts, attemptLoop, runGet, h]

/-- Witness for C5: a URL that always times out. -/
theorem c5_timeout_exhausts_three_attempts_witness :
    (attempt_download (fun _ => GetResult.timeout) "http://u"
          downloadetStr none (FS.mk none)).status = timeoutStr ∧
      (attempt_download (fun _ => GetResult.timeout) "http://u"
          downloadetStr none (FS.mk none)).ok = false ∧
      (attempt_download (fun _ => GetResult.timeout) "http://u"
          downloadetStr none (FS.mk none)).trace =
        [Event.get "http://u" 1, Event.sleep1, Event.get "http://u" 2,
          Event.sleep1, Event.get "http://u" 3, Event.sleep1] ∧
      (attempt_download (fun _ => GetResult.timeout) "http://u"
          downloadetStr none (FS.mk none)).fs = FS.mk none :=
  c5_timeout_exhausts_three_attempts _ _ _ _ _ (fun _ => rfl)

/-- C6 counterexample: an attempt whose response passes both checks but
whose connection drops mid-stream leaves a partial file at the destination
path although the download failed — the code neither truncates nor deletes
it. Here every attempt delivers two bytes and then fails: the loop fails
with a connection-error status, yet the destination file holds the partial
bytes. -/
theorem c6_partial_file_left_on_failed_attempt :
    (attempt_download
          (fun _ => GetResult.response (HttpResponse.mk 200
            "application/pdf" [[7, 7]] (some StreamErr.connErr)))
          "http://u" downloadetStr none (FS.mk none)).ok = false ∧
      (attempt_download
          (fun _ => GetResult.response (HttpResponse.mk 200
            "application/pdf" [[7, 7]] (some StreamErr.connErr)))
          "http://u" downloadetStr none (FS.mk none)).status = connErrStr ∧
      (attempt_download
          (fun _ => GetResult.response (HttpResponse.mk 200
            "application/pdf" [[7, 7]] (some StreamErr.connErr)))
          "http://u" downloadetStr none (FS.mk none)).fs
        = FS.mk (some [7, 7]) := by
  decide

/-- C6 amended: the destination file is opened only after the response
passes the HTTP-status and content-type checks, so any attempt sequence
that never reaches body streaming (transport errors, HTTP errors, non-PDF
content types) fails and leaves the destination-path contents exactly as
they were. A transport error during body streaming, however, leaves a
partially written file at the destination path (see the
counterexample). -/
theorem c6_no_write_before_streaming (net : Nat → GetResult)
    (url status : String) (size : Option Nat) (fs : FS)
    (hnet : ∀ i, noStreamWrite (net i)) :
    (attempt_download net url status size fs).fs = fs ∧
      (attempt_download net url status size fs).ok = false :=
  attemptLoop_fs_noStreamWrite net url max_attempts hnet 1 status size fs []

/-- Witness for C6: a URL that always times out touches no file. -/
theorem c6_no_write_before_streaming_witness :
    (attempt_download (fun _ => GetResult.timeout) "http://u"
          downloadetStr none (FS.mk (some [1]))).fs = FS.mk (some [1]) ∧
      (attempt_download (fun _ => GetResult.timeout) "http://u"
          downloadetStr none (FS.mk (some [1]))).ok = false :=
  c6_no_write_before_streaming _ _ _ _ _ (fun _ => trivial)

/-- C7: no Fetcher-level error escapes the download task. In the
embedding, `download_pdf` is a total function whose returned status is
always one of the concrete terminal status strings (`knownStatus`), and
for every record processed in a session the final ledger holds the status
returned by a processed task — a concrete terminal status, never the
not-attempted marker. (The modelled error space is the `requests`
exception hierarchy the source catches; `sys.exit` on total outage and
uncaught filesystem errors are outside the model, see the header.) -/
theorem c7_processed_record_ends_with_terminal_status
    (net : String → Nat → GetResult) (fs0 : FS) (rows : List Row)
    (ledger : String → String) (input : String) (r : Row)
    (h : r ∈ selected_rows rows ledger input) :
    knownStatus (download_pdf net fs0 r).status ∧
      ∃ r2, r2 ∈ selected_rows rows ledger input ∧
        runSession net fs0 rows ledger input r.brnum =
          (download_pdf net fs0 r2).status ∧
        knownStatus (runSession net fs0 rows ledger input r.brnum) ∧
        runSession net fs0 rows ledger input r.brnum ≠
          ikkeDownloadetStr := by
  refine ⟨download_pdf_status_known net fs0 r, ?_⟩
  have hk : r.brnum ∈ (selected_rows rows ledger input).map Row.brnum :=
    List.mem_map_of_mem Row.brnum h
  obtain ⟨r2, hr2, heq⟩ :=
    foldl_record_apply net fs0 (selected_rows rows ledger input) ledger
      r.brnum hk
  refine ⟨r2, hr2, ?_, ?_, ?_⟩
  · exact heq
  · unfold runSession
    rw [heq]
    exact download_pdf_status_known net fs0 r2
  · unfold runSession
    rw [heq]
    exact download_pdf_status_ne_ikke net fs0 r2

/-- Witness for C7: one selected record, a network that always times
out. -/
theorem c7_processed_record_ends_with_terminal_status_witness :
    knownStatus (download_pdf (fun _ _ => GetResult.timeout) (FS.mk none)
        (Row.mk "A" (some "http://a") none)).status ∧
      ∃ r2, r2 ∈ selected_rows [Row.mk "A" (some "http://a") none]
          (fun _ => ikkeDownloadetStr) "20" ∧
        runSession (fun _ _ => GetResult.timeout) (FS.mk none)
            [Row.mk "A" (some "http://a") none]
            (fun _ => ikkeDownloadetStr) "20"
            (Row.mk "A" (some "http://a") none).brnum =
          (download_pdf (fun _ _ => GetResult.timeout) (FS.mk none)
            r2).status ∧
        knownStatus (runSession (fun _ _ => GetResult.timeout) (FS.mk none)
          [Row.mk "A" (some "http://a") none]
          (fun _ => ikkeDownloadetStr) "20"
          (Row.mk "A" (some "http://a") none).brnum) ∧
        runSession (fun _ _ => GetResult.timeout) (FS.mk none)
            [Row.mk "A" (some "http://a") none]
            (fun _ => ikkeDownloadetStr) "20"
            (Row.mk "A" (some "http://a") none).brnum ≠
          ikkeDownloadetStr :=
  c7_processed_record_ends_with_terminal_status
    (fun _ _ => GetResult.timeout) (FS.mk none)
    [Row.mk "A" (some "http://a") none] (fun _ => ikkeDownloadetStr) "20"
    (Row.mk "A" (some "http://a") none) (by decide)

/-- C8 counterexample: with two candidate records and a batch limit of 1,
the first run selects record A, which reaches a terminal status, yet a
second run over the updated ledger selects record B — one additional
record, not zero. The claim as stated fails whenever the limit does not
cover all candidates. -/
theorem c8_second_run_selects_remaining_candidate :
    selected_rows
        [Row.mk "A" (some "http://a") none, Row.mk "B" (some "http://b") none]
        (fun _ => ikkeDownloadetStr) "1"
      = [Row.mk "A" (some "http://a") none] ∧
      (download_pdf (fun _ _ => GetResult.timeout) (FS.mk none)
          (Row.mk "A" (some "http://a") none)).status ≠ ikkeDownloadetStr ∧
      selected_rows
        [Row.mk "A" (some "http://a") none, Row.mk "B" (some "http://b") none]
        (runSession (fun _ _ => GetResult.timeout) (FS.mk none)
          [Row.mk "A" (some "http://a") none,
            Row.mk "B" (some "http://b") none]
          (fun _ => ikkeDownloadetStr) "1") "1"
      = [Row.mk "B" (some "http://b") none] := by
  decide

/-- C8 amended: every record a session processes ends in a terminal
status (statuses produced by `download_pdf` are never `Ikke downloadet`),
so a second scheduler run over the session-final ledger selects zero
records provided the first run covered all candidates — that is, its
batch limit was at least the number of candidate records. When the limit
is smaller, the second run selects the candidates the first run left
over (see the counterexample), never ones the first run processed. -/
theorem c8_rerun_selects_nothing_when_limit_covers_all
    (net : String → Nat → GetResult) (fs0 : FS) (rows : List Row)
    (ledger : String → String) (input input2 : String)
    (h : ((downloadable_rows rows ledger).length : Int) ≤
      num_pdfs_to_download input) :
    selected_rows rows (runSession net fs0 rows ledger input) input2
      = [] := by
  have hsel : selected_rows rows ledger input
      = downloadable_rows rows ledger := headPd_all _ _ h
  have hdl : downloadable_rows rows (runSession net fs0 rows ledger input)
      = [] := by
    rw [List.eq_nil_iff_forall_not_mem]
    intro r hr
    rw [mem_downloadable_rows] at hr
    obtain ⟨hrows, hsome, hik⟩ := hr
    rw [runSession_ikke] at hik
    obtain ⟨hik0, hnot⟩ := hik
    apply hnot
    rw [hsel]
    apply List.mem_map_of_mem
    rw [mem_downloadable_rows]
    exact ⟨hrows, hsome, hik0⟩
  unfold selected_rows
  rw [hdl]
  unfold headPd
  split
  · exact List.take_nil
  · exact List.take_nil

/-- Witness for C8: one candidate record and the default-sized batch. -/
theorem c8_rerun_selects_nothing_when_limit_covers_all_witness :
    selected_rows [Row.mk "A" (some "http://a") none]
        (runSession (fun _ _ => GetResult.timeout) (FS.mk none)
          [Row.mk "A" (some "http://a") none]
          (fun _ => ikkeDownloadetStr) "20") "20"
      = [] :=
  c8_rerun_selects_nothing_when_limit_covers_all
    (fun _ _ => GetResult.timeout) (FS.mk none)
    [Row.mk "A" (some "http://a") none] (fun _ => ikkeDownloadetStr)
    "20" "20" (by decide)

/-- C9: a dispatched record whose `Pdf_URL` is the empty string (non-null
for `notna`, hence selectable, but falsy) and whose fallback is absent or
empty makes `download_pdf` skip both `attempt_download` calls: it performs
no HTTP request, leaves the filesystem untouched, and returns the initial
status `Downloadet` with file size `N/A` — the record is recorded as
successfully downloaded although nothing was fetched. -/
theorem c9_empty_primary_reports_success (net : String → Nat → GetResult)
    (fs0 : FS) (row : Row) (h1 : row.pdf_url = some "")
    (h2 : row.report_html_address = none ∨
      row.report_html_address = some "") :
    (download_pdf net fs0 row).status = downloadetStr ∧
      (download_pdf net fs0 row).fileSize = none ∧
      (download_pdf net fs0 row).trace = [] ∧
      (download_pdf net fs0 row).fs = fs0 := by
  have hp : truthyUrl row.pdf_url = false := by rw [h1]; rfl
  have ha : truthyUrl row.report_html_address = false := by
    rcases h2 with h2 | h2 <;> rw [h2] <;> rfl
  simp [download_pdf, hp, ha]

/-- Witness for C9: empty primary URL, absent fallback column. -/
theorem c9_empty_primary_reports_success_witness :
    (download_pdf (fun _ _ => GetResult.timeout) (FS.mk none)
        (Row.mk "BR9" (some "") none)).status = downloadetStr ∧
      (download_pdf (fun _ _ => GetResult.timeout) (FS.mk none)
          (Row.mk "BR9" (some "") none)).fileSize = none ∧
      (download_pdf (fun _ _ => GetResult.timeout) (FS.mk none)
          (Row.mk "BR9" (some "") none)).trace = [] ∧
      (download_pdf (fun _ _ => GetResult.timeout) (FS.mk none)
          (Row.mk "BR9" (some "") none)).fs = FS.mk none :=
  c9_empty_primary_reports_success (fun _ _ => GetResult.timeout)
    (FS.mk none) (Row.mk "BR9" (some "") none) rfl (Or.inl rfl)

/-- C10: the batch-size prompt falls back to the default 20 exactly when
the input is empty or fails integer parsing; any string parsing as an
integer is accepted as-is. In particular a negative integer n is not
rejected: `head` then selects all candidate records except the last |n| —
the selection is the prefix of the candidate list whose length is the
candidate count minus |n|, not the default batch and not zero records. -/
theorem c10_batch_size_semantics (rows : List Row)
    (ledger : String → String) (input : String) :
    num_pdfs_to_download "" = 20 ∧
      (input ≠ "" → pyInt input = none →
        num_pdfs_to_download input = 20) ∧
      (∀ n : Int, input ≠ "" → pyInt input = some n →
        num_pdfs_to_download input = n) ∧
      (∀ n : Int, n < 0 → num_pdfs_to_download input = n →
        selected_rows rows ledger input ++
            (downloadable_rows rows ledger).drop
              ((downloadable_rows rows ledger).length - n.natAbs)
          = downloadable_rows rows ledger ∧
        (selected_rows rows ledger input).length =
          (downloadable_rows rows ledger).length - n.natAbs) := by
  refine ⟨rfl, ?_, ?_, ?_⟩
  · intro hne hparse
    simp [num_pdfs_to_download, hne, hparse]
  · intro n hne hparse
    simp [num_pdfs_to_download, hne, hparse]
  · intro n hneg hn
    unfold selected_rows
    rw [hn]
    unfold headPd
    rw [if_neg (by omega)]
    constructor
    · exact List.take_append_drop _ _
    · rw [List.length_take]
      omega

/-- Witness for C10: input "-1" over two candidate records selects the
first and drops the last. -/
theorem c10_batch_size_semantics_witness :
    selected_rows
          [Row.mk "A" (some "http://a") none,
            Row.mk "B" (some "http://b") none]
          (fun _ => ikkeDownloadetStr) "-1" ++
        (downloadable_rows
            [Row.mk "A" (some "http://a") none,
              Row.mk "B" (some "http://b") none]
            (fun _ => ikkeDownloadetStr)).drop
          ((downloadable_rows
              [Row.mk "A" (some "http://a") none,
                Row.mk "B" (some "http://b") none]
              (fun _ => ikkeDownloadetStr)).length - (-1 : Int).natAbs)
      = downloadable_rows
          [Row.mk "A" (some "http://a") none,
            Row.mk "B" (some "http://b") none]
          (fun _ => ikkeDownloadetStr) ∧
      (selected_rows
          [Row.mk "A" (some "http://a") none,
            Row.mk "B" (some "http://b") none]
          (fun _ => ikkeDownloadetStr) "-1").length =
        (downloadable_rows
            [Row.mk "A" (some "http://a") none,
              Row.mk "B" (some "http://b") none]
            (fun _ => ikkeDownloadetStr)).length - (-1 : Int).natAbs :=
  (c10_batch_size_semantics
      [Row.mk "A" (some "http://a") none, Row.mk "B" (some "http://b") none]
      (fun _ => ikkeDownloadetStr) "-1").2.2.2 (-1) (by decide) (by decide)

end PdfDownloader
